import Mathlib

/-!
Shallow embedding of the P4-Search repository (src/main.py, src/filemanager.py,
src/mbox.py) and proofs of the specification claims about it.

The GUI toolkit, the external `p4 grep` process and the native message-box
primitive are external collaborators; they are modelled as oracles (function
parameters) and as explicit effect traces.
-/

namespace P4Search

/-! ## Embedding of src/main.py -/

/-- Button identifiers returned by the message-box primitive
(`mbox.show` return vocabulary, main.py:161-162). -/
inductive Button
  | OK
  | CANCEL
  | ABORT
  | RETRY
  | IGNORE
  | YES
  | NO
  | TRYAGAIN
  | CONTINUE
deriving DecidableEq

/-- Observable effects performed by the event handler of `start_event`
(main.py:76-99) and `send_command` (main.py:123-147):
GUI element updates, the working-directory change, subprocess invocations,
message boxes and the fixed display pause. -/
inductive Effect
  | setOutput (value : String)
  | setStatus (value : String)
  | chdir (path : String)
  | invoke (cmd : List String)
  | showDialog (text : String) (button : String)
  | sleep (seconds : Nat)
deriving DecidableEq

/-- Outcome of one `subprocess.run(['p4','grep'] ++ args)` invocation
(main.py:136-140): either the launch raises an exception whose text is
`msg`, or the process finishes with decoded stdout and stderr. -/
inductive ToolResult
  | launchFail (msg : String)
  | finished (stdout : String) (stderr : String)
deriving DecidableEq

/-- Line-boundary characters of Python `str.splitlines`
(used by main.py:95 via `output.splitlines()`). -/
def isLineBoundary (c : Char) : Bool :=
  c == '\n' || c == '\r' || c == '\x0b' || c == '\x0c' ||
  c == '\x1c' || c == '\x1d' || c == '\x1e' || c == '\x85' ||
  c == '\u2028' || c == '\u2029'

/-- Worker for `splitlines`: accumulates the current line (reversed) in `acc`;
a `\r` immediately followed by `\n` counts as a single boundary, and a
trailing boundary does not open a final empty line — exactly Python
`str.splitlines`. -/
def splitlinesAux : List Char → List Char → List (List Char)
  | acc, [] => if acc.isEmpty then [] else [acc.reverse]
  | acc, c :: rest =>
    if isLineBoundary c then
      match rest with
      | c2 :: rest2 =>
        if c = '\r' ∧ c2 = '\n' then acc.reverse :: splitlinesAux [] rest2
        else acc.reverse :: splitlinesAux [] (c2 :: rest2)
      | [] => [acc.reverse]
    else splitlinesAux (c :: acc) rest

/-- Python `output.splitlines()` (main.py:95). -/
def splitlines (s : String) : List String :=
  (splitlinesAux [] s.data).map fun cs => String.mk cs

/-- The pair `(total_matches, matches)` computed at main.py:95:
`(len(output.splitlines()), output) if output else (0, '')`. -/
def totalAndMatches (output : String) : Nat × String :=
  if output ≠ "" then ((splitlines output).length, output) else (0, "")

/-- The rendered match count, first component of `totalAndMatches`. -/
def matchCount (output : String) : Nat :=
  (totalAndMatches output).1

/-- The two `FileManager` queries the event handler makes against the real
filesystem (`is_directory`, `get_base_name`), abstracted as an oracle. -/
structure GuiEnv where
  is_directory : String → Bool
  get_base_name : String → String

/-- The argument vector built at main.py:89-91:
`args = ['-n','-s','-e',pattern, base + '\*\*.py']`, with `'-i'` inserted at
position 0 when the case checkbox is unchecked. -/
def searchArgs (base : String) (pattern : String) (caseSensitive : Bool) : List String :=
  let args := ["-n", "-s", "-e", pattern, base ++ "\\*\\*.py"]
  if !caseSensitive then "-i" :: args else args

/-- `send_command` (main.py:123-147), driven by a script listing, for each
(re-)invocation, the tool outcome and the button the user would press on a
Retry/Cancel dialog. Returns `none` when the script is exhausted before the
recursion ends; otherwise the effect trace and the Python return value
(`some stdout` for a normal return of `matches`, `none` for the implicit
`None` after a launch failure). -/
def send_command (args : List String) :
    List (ToolResult × Button) → Option (List Effect × Option String)
  | [] => none
  | (res, btn) :: rest =>
    match res with
    | ToolResult.launchFail msg =>
      some ([Effect.invoke (["p4", "grep"] ++ args), Effect.showDialog msg "OK"], none)
    | ToolResult.finished stdout stderr =>
      if stderr ≠ "" then
        if btn = Button.RETRY then
          match send_command args rest with
          | none => none
          | some (effs, ret) =>
            some (Effect.invoke (["p4", "grep"] ++ args) ::
                  Effect.showDialog stderr "RETRYCANCEL" :: effs, ret)
        else
          some ([Effect.invoke (["p4", "grep"] ++ args),
                 Effect.showDialog stderr "RETRYCANCEL"], some stdout)
      else
        some ([Effect.invoke (["p4", "grep"] ++ args)], some stdout)

/-- A script is long enough for `send_command` to terminate: it is nonempty
and stops recursing at a launch failure, a clean run, or a non-Retry click. -/
def scriptOk : List (ToolResult × Button) → Bool
  | [] => false
  | (res, btn) :: rest =>
    match res with
    | ToolResult.launchFail _ => true
    | ToolResult.finished _ stderr =>
      if stderr ≠ "" ∧ btn = Button.RETRY then scriptOk rest else true

/-- The effects performed after `send_command` returns (main.py:94-99):
when it returned a string, render the match summary, set status Complete,
pause one second; in every case end with status Idle. -/
def successTail : Option String → List Effect
  | some output =>
    [Effect.setOutput ("**" ++ toString (totalAndMatches output).1 ++
       " matches found**\n" ++ (totalAndMatches output).2),
     Effect.setStatus "Status: Complete",
     Effect.sleep 1,
     Effect.setStatus "Status: Idle"]
  | none => [Effect.setStatus "Status: Idle"]

/-- The `event == 'Search'` branch of `start_event` (main.py:76-99) for one
submission: validation in order (missing path, invalid path, missing
pattern), then clear output, change directory, build args, set status,
run `send_command`, and render the result when it returned a string. -/
def handle_search (env : GuiEnv) (path : String) (pattern : String)
    (caseSensitive : Bool) (script : List (ToolResult × Button)) :
    Option (List Effect) :=
  if path = "" then some [Effect.showDialog "Missing path" "OK"]
  else if !env.is_directory path then some [Effect.showDialog "Invalid path" "OK"]
  else if pattern = "" then some [Effect.showDialog "Missing pattern" "OK"]
  else
    let args := searchArgs (env.get_base_name path) pattern caseSensitive
    match send_command args script with
    | none => none
    | some (effs, ret) =>
      some ([Effect.setOutput "", Effect.chdir path,
             Effect.setStatus "Status: In Progress"] ++ effs ++ successTail ret)

/-! ## Embedding of src/filemanager.py

Python values that can reach `FileManager._validate_params` are modelled by a
small dynamic-value type; the filesystem is a partial map from path strings to
file contents. -/

/-- A dynamically typed Python value, as far as `_validate_params` and
`mbox._validate_param` can observe it. -/
inductive PyVal
  | vstr (s : String)
  | vlist (xs : List PyVal)
  | vtuple (xs : List PyVal)
  | vbool (b : Bool)
  | vnone

/-- The expected-type markers passed to `_validate_params` (`str`, `list`). -/
inductive PyType
  | tstr
  | tlist
deriving DecidableEq

/-- Python truthiness (`if not (param and ...)`) for the modelled values. -/
def truthy : PyVal → Bool
  | PyVal.vstr s => s ≠ ""
  | PyVal.vlist xs => !xs.isEmpty
  | PyVal.vtuple xs => !xs.isEmpty
  | PyVal.vbool b => b
  | PyVal.vnone => false

/-- Python `isinstance(param, type_)` for the modelled values and types. -/
def pyIsinstance : PyVal → PyType → Bool
  | PyVal.vstr _, PyType.tstr => true
  | PyVal.vlist _, PyType.tlist => true
  | _, _ => false

/-- Python `isinstance(params, (list, tuple, dict, set))`
(filemanager.py:507): is the value a sequence container. -/
def isSeqVal : PyVal → Bool
  | PyVal.vlist _ => true
  | PyVal.vtuple _ => true
  | _ => false

/-- The sequence view `_validate_params` takes of its `params` argument:
containers are used as-is, anything else is wrapped in a 1-tuple
(filemanager.py:507-508). -/
def asParamSeq (v : PyVal) : List PyVal :=
  match v with
  | PyVal.vlist xs => xs
  | PyVal.vtuple xs => xs
  | v => [v]

/-- The `for param, type_ in zip(params, types)` loop of `_validate_params`
(filemanager.py:511-513): raises `ValueError` at the first pair failing
`param and isinstance(param, type_)`. -/
def validateLoop (op : String) : List (PyVal × PyType) → Except String Unit
  | [] => Except.ok ()
  | (p, t) :: rest =>
    if truthy p && pyIsinstance p t then validateLoop op rest
    else Except.error ("Unable to " ++ op ++ ": invalid parameter")

/-- `FileManager._validate_params` (filemanager.py:506-513). `types` is
given already as a sequence (the Python code wraps a lone type the same
way it wraps lone params). -/
def validate_params (params : PyVal) (types : List PyType) (op : String) :
    Except String Unit :=
  validateLoop op ((asParamSeq params).zip types)

/-- `FileManager.is_file` (filemanager.py:122-138) with an explicit path
argument: validate, then call `os.path.isfile`. The first component records
whether the OS call was reached; a non-string surviving validation makes
`os.stat` raise `TypeError`. -/
def is_file (isfile : String → Bool) (path : PyVal) :
    Bool × Except String Bool :=
  match validate_params path [PyType.tstr] "validate file" with
  | Except.error e => (false, Except.error e)
  | Except.ok _ =>
    match path with
    | PyVal.vstr s => (true, Except.ok (isfile s))
    | _ => (true, Except.error "TypeError")

/-- A filesystem state: which paths hold a file and with what content. -/
def FSState : Type := String → Option String

/-- `open(path, 'r')` + `f.read()` in `_op_handler` (filemanager.py:527-529):
reading a missing file raises `FileNotFoundError`, translated at
filemanager.py:538-539 to the fixed message. -/
def op_read (fs : FSState) (path : String) : Except String String :=
  match fs path with
  | some content => Except.ok content
  | none => Except.error "No such file or directory"

/-- `open(path, 'w')` + `f.write(data)` in `_op_handler`: truncate or create,
then write `data`. -/
def op_write (fs : FSState) (path : String) (data : String) : FSState :=
  fun p => if p = path then some data else fs p

/-- `open(path, 'a')` + `f.write(data)` in `_op_handler`: create if missing,
append `data` to the existing content. -/
def op_append (fs : FSState) (path : String) (data : String) : FSState :=
  fun p => if p = path then some (((fs path).getD "") ++ data) else fs p

/-- `FileManager.read_content` (filemanager.py:333-349). -/
def read_content (fs : FSState) (path : String) : Except String String :=
  match validate_params (PyVal.vstr path) [PyType.tstr] "read content" with
  | Except.error e => Except.error e
  | Except.ok _ => op_read fs path

/-- `FileManager.write_content` (filemanager.py:351-365): validates
`(content, path)` against `(str, str)`, then `_op_handler(path, 'write',
content)`. -/
def write_content (fs : FSState) (content : String) (path : String) :
    Except String FSState :=
  match validate_params (PyVal.vtuple [PyVal.vstr content, PyVal.vstr path])
      [PyType.tstr, PyType.tstr] "write content" with
  | Except.error e => Except.error e
  | Except.ok _ => Except.ok (op_write fs path content)

/-- `FileManager.append_content` (filemanager.py:367-381). -/
def append_content (fs : FSState) (content : String) (path : String) :
    Except String FSState :=
  match validate_params (PyVal.vtuple [PyVal.vstr content, PyVal.vstr path])
      [PyType.tstr, PyType.tstr] "append content" with
  | Except.error e => Except.error e
  | Except.ok _ => Except.ok (op_append fs path content)

/-- `FileManager.clear_file_content` (filemanager.py:435-446): validates the
path, then `_op_handler(path, 'write')` with the default empty `data`. -/
def clear_file_content (fs : FSState) (path : String) : Except String FSState :=
  match validate_params (PyVal.vstr path) [PyType.tstr] "clear content" with
  | Except.error e => Except.error e
  | Except.ok _ => Except.ok (op_write fs path "")

/-- The exception an OS-level primitive can raise inside `_op_handler`,
with the detail text the OS attached to it. `FileNotFoundError`,
`FileExistsError` and `PermissionError` are the `OSError` subclasses named
by their own `except` clauses; `otherOSError` is any other `OSError`. -/
inductive OSException
  | fileNotFound (detail : String)
  | fileExists (detail : String)
  | permissionDenied (detail : String)
  | otherOSError (detail : String)
  | unicodeDecodeError (detail : String)
deriving DecidableEq

/-- The exception class and message `_op_handler` re-raises, with the
original cause suppressed (`from None`). -/
structure Raised where
  exc : String
  message : String
deriving DecidableEq

/-- The `except` ladder of `_op_handler` (filemanager.py:538-547): each OS
exception kind is re-raised with a fixed message and `from None`. -/
def op_handler_translate : OSException → Raised
  | OSException.fileNotFound _ =>
    { exc := "FileNotFoundError", message := "No such file or directory" }
  | OSException.fileExists _ =>
    { exc := "FileExistsError", message := "File already exists" }
  | OSException.permissionDenied _ =>
    { exc := "PermissionError", message := "Insufficient file permissions" }
  | OSException.otherOSError _ =>
    { exc := "OSError", message := "OS error during file operation" }
  | OSException.unicodeDecodeError _ =>
    { exc := "ValueError", message := "Unable to read file content" }

/-- The kind of an `OSException`, forgetting the OS-supplied detail text. -/
inductive OSExcKind
  | notFound
  | alreadyExists
  | permission
  | otherOS
  | decode
deriving DecidableEq

/-- Kind of an OS exception. -/
def excKind : OSException → OSExcKind
  | OSException.fileNotFound _ => OSExcKind.notFound
  | OSException.fileExists _ => OSExcKind.alreadyExists
  | OSException.permissionDenied _ => OSExcKind.permission
  | OSException.otherOSError _ => OSExcKind.otherOS
  | OSException.unicodeDecodeError _ => OSExcKind.decode

/-- The five fixed re-raised failures of `_op_handler`, indexed by kind. -/
def raisedOfKind : OSExcKind → Raised
  | OSExcKind.notFound =>
    { exc := "FileNotFoundError", message := "No such file or directory" }
  | OSExcKind.alreadyExists =>
    { exc := "FileExistsError", message := "File already exists" }
  | OSExcKind.permission =>
    { exc := "PermissionError", message := "Insufficient file permissions" }
  | OSExcKind.otherOS =>
    { exc := "OSError", message := "OS error during file operation" }
  | OSExcKind.decode =>
    { exc := "ValueError", message := "Unable to read file content" }

/-! ## Embedding of src/mbox.py -/

/-- The `button_values` table of `mbox._validate_param` (mbox.py:54-63);
`none` for a selector not in the dict. -/
def button_values : String → Option Nat
  | "OK" => some 0
  | "OKCANCEL" => some 1
  | "ABORTRETRYIGNORE" => some 2
  | "YESNOCANCEL" => some 3
  | "YESNO" => some 4
  | "RETRYCANCEL" => some 5
  | "CANCELTRYCONTINUE" => some 6
  | "OKHELP" => some 0x4000
  | _ => none

/-- The `icon_values` table of `mbox._validate_param` (mbox.py:65-75). -/
def icon_values : String → Option Nat
  | "NOICON" => some 0x00
  | "ICONSTOP" => some 0x10
  | "ICONERROR" => some 0x10
  | "ICONHAND" => some 0x10
  | "ICONQUESTION" => some 0x20
  | "ICONEXCLAMATION" => some 0x30
  | "ICONWARNING" => some 0x30
  | "ICONINFORMATION" => some 0x40
  | "ICONASTERISK" => some 0x40
  | _ => none

/-- The `return_values` table of `mbox.show` (mbox.py:37-47); `none` models
the `KeyError` a dialog-return code outside the table would raise. -/
def return_values : Nat → Option String
  | 1 => some "OK"
  | 2 => some "CANCEL"
  | 3 => some "ABORT"
  | 4 => some "RETRY"
  | 5 => some "IGNORE"
  | 6 => some "YES"
  | 7 => some "NO"
  | 10 => some "TRYAGAIN"
  | 11 => some "CONTINUE"
  | _ => none

/-- Whether a modelled Python value is a `str`. -/
def isStr : PyVal → Bool
  | PyVal.vstr _ => true
  | _ => false

/-- The string payload of a modelled Python value (`""` for non-strings,
only consulted after a successful `isinstance(value, str)` check). -/
def strVal : PyVal → String
  | PyVal.vstr s => s
  | _ => ""

/-- `mbox._validate_param` (mbox.py:53-86) at the keyword order
`title, text, button, icon` used by `show` (mbox.py:49): `title` and `text`
only need `isinstance(value, str)`; `button` and `icon` must be keys of
their tables; the first failing keyword raises
`ValueError('Invalid <key> parameter specified')`. -/
def validate_param (title text : PyVal) (button icon : String) :
    Except String (Nat × Nat) :=
  if !isStr title then Except.error "Invalid title parameter specified"
  else if !isStr text then Except.error "Invalid text parameter specified"
  else
    match button_values button with
    | none => Except.error "Invalid button parameter specified"
    | some b =>
      match icon_values icon with
      | none => Except.error "Invalid icon parameter specified"
      | some i => Except.ok (b, i)

/-- One `MessageBoxW(0, text, title, style)` call as seen by the oracle. -/
structure DialogCall where
  text : String
  title : String
  style : Nat
deriving DecidableEq

/-- `mbox.show` (mbox.py:9-51): validate, add the two style values, call the
native dialog, translate its integer return. The first component is the
dialog call that was made (`none` when validation failed before any dialog
was shown). -/
def mbox_show (mb : DialogCall → Nat) (title text : PyVal)
    (button icon : String) : Option DialogCall × Except String String :=
  match validate_param title text button icon with
  | Except.error e => (none, Except.error e)
  | Except.ok (b, i) =>
    let call : DialogCall :=
      { text := strVal text, title := strVal title, style := b + i }
    (some call,
     match return_values (mb call) with
     | some s => Except.ok s
     | none => Except.error "KeyError")

/-! ## Spec-side definitions (for refinement comparison only)

These definitions follow the words of the specification, not the source, and
exist solely to be compared against the source-derived definitions above. -/

/-- Split on `'\n'` only, keeping a (possibly empty) final segment. -/
def newlineSplitAux : List Char → List Char → List (List Char)
  | acc, [] => [acc.reverse]
  | acc, c :: rest =>
    if c = '\n' then acc.reverse :: newlineSplitAux [] rest
    else newlineSplitAux (c :: acc) rest

/-- Drop a trailing empty segment, if any. -/
def dropTrailingEmpty (ls : List (List Char)) : List (List Char) :=
  if ls.getLast? = some [] then ls.dropLast else ls

/-- Modelled from the spec: "the number of newline-separated lines of that
string not counting a trailing empty line" (0 for the empty string). -/
def specNewlineCount (s : String) : Nat :=
  (dropTrailingEmpty (newlineSplitAux [] s.data)).length

/-! ## Helper lemmas -/

/-- The second component of `totalAndMatches` is always the stdout string
itself (the empty branch substitutes `''` for the empty string). -/
theorem totalAndMatches_snd (s : String) : (totalAndMatches s).2 = s := by
  by_cases h : s = "" <;> simp [totalAndMatches, h]

/-- Every successful `send_command` effect trace contains the invocation of
the external tool with the given argument vector. -/
theorem send_command_mem_invoke (args : List String) :
    ∀ (script : List (ToolResult × Button)) (effs : List Effect)
      (ret : Option String),
      send_command args script = some (effs, ret) →
      Effect.invoke (["p4", "grep"] ++ args) ∈ effs := by
  intro script
  induction script with
  | nil => intro effs ret h; simp [send_command] at h
  | cons hd rest ih =>
    intro effs ret h
    obtain ⟨res, btn⟩ := hd
    cases res with
    | launchFail msg =>
      simp [send_command] at h
      rw [← h.1]
      simp
    | finished stdout stderr =>
      by_cases hserr : stderr = ""
      · subst hserr
        simp [send_command] at h
        rw [← h.1]
        simp
      · by_cases hbtn : btn = Button.RETRY
        · subst hbtn
          simp [send_command, hserr] at h
          cases hrec : send_command args rest with
          | none => rw [hrec] at h; simp at h
          | some pr =>
            obtain ⟨effs0, ret0⟩ := pr
            rw [hrec] at h
            simp at h
            rw [← h.1]
            simp
        · simp [send_command, hserr, hbtn] at h
          rw [← h.1]
          simp

/-- A script satisfying `scriptOk` makes `send_command` terminate with a
result. -/
theorem send_command_isSome (args : List String) :
    ∀ script : List (ToolResult × Button), scriptOk script = true →
      (send_command args script).isSome = true := by
  intro script
  induction script with
  | nil => intro h; simp [scriptOk] at h
  | cons hd rest ih =>
    intro h
    obtain ⟨res, btn⟩ := hd
    cases res with
    | launchFail msg => simp [send_command]
    | finished stdout stderr =>
      by_cases hserr : stderr = ""
      · subst hserr; simp [send_command]
      · by_cases hbtn : btn = Button.RETRY
        · subst hbtn
          have hrest : scriptOk rest = true := by
            simpa [scriptOk, hserr] using h
          have hsome := ih hrest
          simp [send_command, hserr]
          cases hrec : send_command args rest with
          | none => rw [hrec] at hsome; simp at hsome
          | some pr => obtain ⟨e0, r0⟩ := pr; simp
        · simp [send_command, hserr, hbtn]

/-- When all three validation checks pass, the trace of `handle_search` is
the fixed prefix, the `send_command` effects, and the rendering tail. -/
theorem handle_search_success (env : GuiEnv) (path pattern : String)
    (c : Bool) (script : List (ToolResult × Button)) (effs0 : List Effect)
    (ret0 : Option String)
    (hp : path ≠ "") (hd : env.is_directory path = true) (hq : pattern ≠ "")
    (hrec : send_command (searchArgs (env.get_base_name path) pattern c)
      script = some (effs0, ret0)) :
    handle_search env path pattern c script =
      some ([Effect.setOutput "", Effect.chdir path,
             Effect.setStatus "Status: In Progress"] ++ effs0 ++
            successTail ret0) := by
  simp [handle_search, hp, hd, hq, hrec]

/-- An environment in which every path is a directory and `get_base_name`
is the identity. -/
def envId : GuiEnv :=
  { is_directory := fun _ => true, get_base_name := fun s => s }

/-- An environment in which every path is a directory and every base name
is `repo` (as `os.path.basename` would give for `/repo`). -/
def envRepo : GuiEnv :=
  { is_directory := fun _ => true, get_base_name := fun _ => "repo" }

/-! ## Claims -/

/-- C2: for every (path, pattern, caseSensitive) triple that passes
validation, the argument vector contains `-n` and `-s`, contains `-e` paired
with the pattern text followed by the glob derived from the base name of
the directory, and has `-i` prepended as the first element if and only if
the case-sensitive toggle is false. -/
theorem searchArgs_shape (base pattern : String) (caseSensitive : Bool) :
    "-n" ∈ searchArgs base pattern caseSensitive ∧
    "-s" ∈ searchArgs base pattern caseSensitive ∧
    (∃ l r, searchArgs base pattern caseSensitive =
      l ++ ["-e", pattern, base ++ "\\*\\*.py"] ++ r) ∧
    ((searchArgs base pattern caseSensitive).head? = some "-i" ↔
      caseSensitive = false) := by
  cases caseSensitive with
  | false =>
    exact ⟨by simp [searchArgs], by simp [searchArgs],
      ⟨["-i", "-n", "-s"], [], by simp [searchArgs]⟩, by simp [searchArgs]⟩
  | true =>
    exact ⟨by simp [searchArgs], by simp [searchArgs],
      ⟨["-n", "-s"], [], by simp [searchArgs]⟩, by simp [searchArgs]⟩

/-- C3 counterexample: a run with non-empty stderr on which the user picks
Cancel still renders the captured stdout into the output panel (because
`send_command` falls through to `return matches` after the dialog), so the
output panel is mutated with the rendered standard output. -/
theorem cancel_renders_counterexample :
    handle_search envId "d" "p" true
        [(ToolResult.finished "m\n" "permission denied", Button.CANCEL)] =
      some [Effect.setOutput "", Effect.chdir "d",
            Effect.setStatus "Status: In Progress",
            Effect.invoke ["p4", "grep", "-n", "-s", "-e", "p", "d\\*\\*.py"],
            Effect.showDialog "permission denied" "RETRYCANCEL",
            Effect.setOutput "**1 matches found**\nm\n",
            Effect.setStatus "Status: Complete", Effect.sleep 1,
            Effect.setStatus "Status: Idle"] ∧
    Effect.setOutput "**1 matches found**\nm\n" ∈
      (handle_search envId "d" "p" true
        [(ToolResult.finished "m\n" "permission denied", Button.CANCEL)]).getD [] := by
  decide

/-- C3 (amended): when stderr is non-empty and the user chooses Cancel, the
status does return to Idle, but the run is not abandoned without rendering:
the captured stdout is still returned by `send_command` and rendered into
the output panel as a normal result. -/
theorem cancel_still_renders (env : GuiEnv) (path pattern : String) (c : Bool)
    (stdout stderr : String)
    (hp : path ≠ "") (hd : env.is_directory path = true) (hpat : pattern ≠ "")
    (hserr : stderr ≠ "") :
    handle_search env path pattern c
        [(ToolResult.finished stdout stderr, Button.CANCEL)] =
      some [Effect.setOutput "", Effect.chdir path,
            Effect.setStatus "Status: In Progress",
            Effect.invoke (["p4", "grep"] ++
              searchArgs (env.get_base_name path) pattern c),
            Effect.showDialog stderr "RETRYCANCEL",
            Effect.setOutput ("**" ++ toString (matchCount stdout) ++
              " matches found**\n" ++ stdout),
            Effect.setStatus "Status: Complete", Effect.sleep 1,
            Effect.setStatus "Status: Idle"] := by
  simp [handle_search, hp, hd, hpat, send_command, hserr, matchCount,
    successTail, totalAndMatches_snd]

/-- C3 amended witness at a concrete input. -/
theorem cancel_still_renders_witness :
    handle_search envId "d" "p" true
        [(ToolResult.finished "m\n" "permission denied", Button.CANCEL)] =
      some [Effect.setOutput "", Effect.chdir "d",
            Effect.setStatus "Status: In Progress",
            Effect.invoke ["p4", "grep", "-n", "-s", "-e", "p", "d\\*\\*.py"],
            Effect.showDialog "permission denied" "RETRYCANCEL",
            Effect.setOutput "**1 matches found**\nm\n",
            Effect.setStatus "Status: Complete", Effect.sleep 1,
            Effect.setStatus "Status: Idle"] :=
  (cancel_still_renders envId "d" "p" true "m\n" "permission denied"
    (by decide) rfl (by decide) (by decide)).trans (by decide)

/-- C5: for every error-free run, the output panel is set to exactly
`**{matchCount} matches found**\n` followed by the captured stdout, the
status is set to Complete, a fixed 1-second pause follows, and the status
ends at Idle. -/
theorem error_free_run (env : GuiEnv) (path pattern : String) (c : Bool)
    (btn : Button) (stdout : String)
    (hp : path ≠ "") (hd : env.is_directory path = true) (hpat : pattern ≠ "") :
    handle_search env path pattern c [(ToolResult.finished stdout "", btn)] =
      some [Effect.setOutput "", Effect.chdir path,
            Effect.setStatus "Status: In Progress",
            Effect.invoke (["p4", "grep"] ++
              searchArgs (env.get_base_name path) pattern c),
            Effect.setOutput ("**" ++ toString (matchCount stdout) ++
              " matches found**\n" ++ stdout),
            Effect.setStatus "Status: Complete", Effect.sleep 1,
            Effect.setStatus "Status: Idle"] := by
  simp [handle_search, hp, hd, hpat, send_command, matchCount,
    successTail, totalAndMatches_snd]

/-- C5 witness: the concrete scenario of the spec (directory `/repo`,
pattern `TODO`, case-sensitive false, two stdout lines) renders
`**2 matches found**` followed by the raw output and ends at Idle. -/
theorem error_free_run_witness :
    handle_search envRepo "/repo" "TODO" false
        [(ToolResult.finished "a.py:3:# TODO fix\nb.py:9:# TODO\n" "", Button.OK)] =
      some [Effect.setOutput "", Effect.chdir "/repo",
            Effect.setStatus "Status: In Progress",
            Effect.invoke ["p4", "grep", "-i", "-n", "-s", "-e", "TODO",
              "repo\\*\\*.py"],
            Effect.setOutput "**2 matches found**\na.py:3:# TODO fix\nb.py:9:# TODO\n",
            Effect.setStatus "Status: Complete", Effect.sleep 1,
            Effect.setStatus "Status: Idle"] :=
  (error_free_run envRepo "/repo" "TODO" false Button.OK
    "a.py:3:# TODO fix\nb.py:9:# TODO\n" (by decide) rfl (by decide)).trans
    (by decide)

/-- C6: for every run with non-empty stderr, a Retry/Cancel dialog carrying
that text is shown, and each Retry re-invokes the tool with the identical
argument vector, for an arbitrary number `n` of retries (no bound). -/
theorem retry_identical_args (args : List String)
    (stdout stderr stdout2 : String) (btn2 : Button) (n : Nat)
    (hserr : stderr ≠ "") :
    send_command args
        (List.replicate n (ToolResult.finished stdout stderr, Button.RETRY) ++
          [(ToolResult.finished stdout2 "", btn2)]) =
      some ((List.replicate n [Effect.invoke (["p4", "grep"] ++ args),
              Effect.showDialog stderr "RETRYCANCEL"]).flatten ++
            [Effect.invoke (["p4", "grep"] ++ args)], some stdout2) := by
  induction n with
  | zero => simp [send_command]
  | succ m ih =>
    simp only [List.replicate_succ, List.cons_append, List.flatten_cons]
    simp [send_command, hserr, ih]

/-- C6 witness: two retries at a concrete argument vector. -/
theorem retry_identical_args_witness :
    send_command ["-n", "-s", "-e", "p", "d\\*\\*.py"]
        (List.replicate 2
            (ToolResult.finished "out" "err", Button.RETRY) ++
          [(ToolResult.finished "ok" "", Button.OK)]) =
      some ((List.replicate 2
              [Effect.invoke ["p4", "grep", "-n", "-s", "-e", "p", "d\\*\\*.py"],
               Effect.showDialog "err" "RETRYCANCEL"]).flatten ++
            [Effect.invoke ["p4", "grep", "-n", "-s", "-e", "p", "d\\*\\*.py"]],
            some "ok") :=
  retry_identical_args ["-n", "-s", "-e", "p", "d\\*\\*.py"] "out" "err" "ok"
    Button.OK 2 (by decide)

/-- A newline-only split always produces at least one segment. -/
theorem newlineSplitAux_ne_nil :
    ∀ (cs acc : List Char), newlineSplitAux acc cs ≠ [] := by
  intro cs
  induction cs with
  | nil => intro acc; simp [newlineSplitAux]
  | cons c rest ih =>
    intro acc
    by_cases hc : c = '\n'
    · simp [newlineSplitAux, hc]
    · simpa [newlineSplitAux, hc] using ih (c :: acc)

/-- Dropping a trailing empty segment commutes with a cons whose tail is
nonempty. -/
theorem dropTrailingEmpty_cons (x : List Char) (ls : List (List Char))
    (h : ls ≠ []) :
    dropTrailingEmpty (x :: ls) = x :: dropTrailingEmpty ls := by
  obtain ⟨y, ys, rfl⟩ := List.exists_cons_of_ne_nil h
  unfold dropTrailingEmpty
  by_cases hlast : (y :: ys).getLast? = some []
  · simp [List.getLast?_cons_cons, hlast, List.dropLast_cons₂]
  · simp [List.getLast?_cons_cons, hlast]

/-- On character lists whose only line-boundary characters are `'\n'`,
Python `splitlines` agrees with the newline-only split with a trailing
empty segment removed. -/
theorem splitlinesAux_newline_only :
    ∀ cs : List Char, (∀ c ∈ cs, isLineBoundary c = true → c = '\n') →
      ∀ acc, splitlinesAux acc cs = dropTrailingEmpty (newlineSplitAux acc cs) := by
  intro cs
  induction cs with
  | nil =>
    intro _ acc
    by_cases ha : acc = [] <;>
      simp [splitlinesAux, newlineSplitAux, dropTrailingEmpty, ha]
  | cons c rest ih =>
    intro h acc
    have hrest : ∀ x ∈ rest, isLineBoundary x = true → x = '\n' :=
      fun x hx => h x (List.mem_cons_of_mem _ hx)
    by_cases hb : isLineBoundary c = true
    · have hcn : c = '\n' := h c (List.mem_cons_self _ _) hb
      subst hcn
      cases rest with
      | nil =>
        simp [splitlinesAux, newlineSplitAux, dropTrailingEmpty,
          isLineBoundary]
      | cons c2 rest2 =>
        have hne : newlineSplitAux [] (c2 :: rest2) ≠ [] :=
          newlineSplitAux_ne_nil (c2 :: rest2) []
        calc splitlinesAux acc ('\n' :: c2 :: rest2)
            = acc.reverse :: splitlinesAux [] (c2 :: rest2) := by
              simp [splitlinesAux, isLineBoundary]
          _ = acc.reverse :: dropTrailingEmpty (newlineSplitAux [] (c2 :: rest2)) := by
              rw [ih hrest []]
          _ = dropTrailingEmpty (newlineSplitAux acc ('\n' :: c2 :: rest2)) := by
              rw [show newlineSplitAux acc ('\n' :: c2 :: rest2)
                    = acc.reverse :: newlineSplitAux [] (c2 :: rest2) by
                  simp [newlineSplitAux]]
              rw [dropTrailingEmpty_cons _ _ hne]
    · have hcn : c ≠ '\n' := by
        intro hh
        subst hh
        exact hb (by decide)
      rw [show splitlinesAux acc (c :: rest) = splitlinesAux (c :: acc) rest by
          rw [splitlinesAux.eq_def]; simp [hb]]
      rw [show newlineSplitAux acc (c :: rest) = newlineSplitAux (c :: acc) rest by
          simp [newlineSplitAux, hcn]]
      exact ih hrest (c :: acc)

/-- C4 counterexample: the rendered count uses Python `splitlines`, whose
line boundaries are not only `'\n'`; on the stdout string `a\rb` the code
renders 2 while the number of newline-separated lines (not counting a
trailing empty line) is 1. -/
theorem match_count_counterexample :
    matchCount "a\rb" = 2 ∧ specNewlineCount "a\rb" = 1 := by
  decide

/-- C4 (amended): the rendered matchCount is the Python `splitlines` segment
count (whose boundaries also include carriage return, form feed, and the
other universal line boundaries); for stdout strings whose only
line-boundary characters are `'\n'`, it equals the number of
newline-separated lines not counting a trailing empty line, and it is 0 for
the empty string. -/
theorem match_count_newline_only (s : String)
    (h : ∀ c ∈ s.data, isLineBoundary c = true → c = '\n') :
    matchCount s = specNewlineCount s ∧ matchCount "" = 0 := by
  refine ⟨?_, rfl⟩
  by_cases hs : s = ""
  · subst hs; rfl
  · have hmk : matchCount s = (splitlinesAux [] s.data).length := by
      simp [matchCount, totalAndMatches, hs, splitlines]
    rw [hmk, specNewlineCount, splitlinesAux_newline_only s.data h []]

/-- C4 amended witness at the concrete stdout of the spec scenario. -/
theorem match_count_newline_only_witness :
    matchCount "a.py:3:# TODO fix\nb.py:9:# TODO\n" =
      specNewlineCount "a.py:3:# TODO fix\nb.py:9:# TODO\n" ∧
    matchCount "" = 0 :=
  match_count_newline_only "a.py:3:# TODO fix\nb.py:9:# TODO\n" (by decide)

/-- C1: validation checks run in the fixed order (missing path, invalid
path, missing pattern); the first failing check produces exactly one
OK-only dialog with the fixed message and nothing else; the external tool
is invoked if and only if all three checks pass. -/
theorem validation_gate (env : GuiEnv) (path pattern : String) (c : Bool)
    (script : List (ToolResult × Button)) (hs : scriptOk script = true) :
    (path = "" → handle_search env path pattern c script =
      some [Effect.showDialog "Missing path" "OK"]) ∧
    (path ≠ "" → env.is_directory path = false →
      handle_search env path pattern c script =
        some [Effect.showDialog "Invalid path" "OK"]) ∧
    (path ≠ "" → env.is_directory path = true → pattern = "" →
      handle_search env path pattern c script =
        some [Effect.showDialog "Missing pattern" "OK"]) ∧
    (path ≠ "" → env.is_directory path = true → pattern ≠ "" →
      ∃ effs, handle_search env path pattern c script = some effs ∧
        Effect.invoke (["p4", "grep"] ++
          searchArgs (env.get_base_name path) pattern c) ∈ effs) ∧
    (∀ effs, handle_search env path pattern c script = some effs →
      ((∃ cmd, Effect.invoke cmd ∈ effs) ↔
        (path ≠ "" ∧ env.is_directory path = true ∧ pattern ≠ ""))) := by
  refine ⟨?_, ?_, ?_, ?_, ?_⟩
  · intro hp
    simp [handle_search, hp]
  · intro hp hd
    simp [handle_search, hp, hd]
  · intro hp hd hq
    simp [handle_search, hp, hd, hq]
  · intro hp hd hq
    have hsome := send_command_isSome
      (searchArgs (env.get_base_name path) pattern c) script hs
    cases hrec : send_command (searchArgs (env.get_base_name path) pattern c)
        script with
    | none => rw [hrec] at hsome; simp at hsome
    | some pr =>
      obtain ⟨effs0, ret0⟩ := pr
      have hmem := send_command_mem_invoke
        (searchArgs (env.get_base_name path) pattern c) script effs0 ret0 hrec
      have hmem2 : Effect.invoke ("p4" :: "grep" ::
          searchArgs (env.get_base_name path) pattern c) ∈ effs0 := by
        simpa using hmem
      exact ⟨_, handle_search_success env path pattern c script effs0 ret0
        hp hd hq hrec, by simp [hmem2]⟩
  · intro effs heq
    by_cases hp : path = ""
    · simp [handle_search, hp] at heq
      subst heq
      simp [hp]
    · by_cases hd : env.is_directory path = true
      · by_cases hq : pattern = ""
        · simp [handle_search, hp, hd, hq] at heq
          subst heq
          simp [hq]
        · cases hrec : send_command
              (searchArgs (env.get_base_name path) pattern c) script with
          | none => simp [handle_search, hp, hd, hq, hrec] at heq
          | some pr =>
            obtain ⟨effs0, ret0⟩ := pr
            have hmem := send_command_mem_invoke
              (searchArgs (env.get_base_name path) pattern c) script effs0
              ret0 hrec
            have hform := handle_search_success env path pattern c script
              effs0 ret0 hp hd hq hrec
            rw [hform] at heq
            have heffs : effs = [Effect.setOutput "", Effect.chdir path,
                Effect.setStatus "Status: In Progress"] ++ effs0 ++
                successTail ret0 := by
              exact (Option.some_injective _ heq).symm
            subst heffs
            constructor
            · intro _; exact ⟨hp, hd, hq⟩
            · intro _
              have hmem2 : Effect.invoke ("p4" :: "grep" ::
                  searchArgs (env.get_base_name path) pattern c) ∈ effs0 := by
                simpa using hmem
              exact ⟨["p4", "grep"] ++
                searchArgs (env.get_base_name path) pattern c,
                by simp [hmem2]⟩
      · have hd' : env.is_directory path = false := by
          cases hdd : env.is_directory path with
          | false => rfl
          | true => exact absurd hdd hd
        simp [handle_search, hp, hd'] at heq
        subst heq
        simp [hd']

/-- C1 witness: a concrete all-pass input runs the tool, and a concrete
missing-path input shows only the fixed dialog. -/
theorem validation_gate_witness :
    scriptOk [(ToolResult.finished "out" "", Button.OK)] = true ∧
    (∃ effs, handle_search envId "d" "p" true
        [(ToolResult.finished "out" "", Button.OK)] = some effs ∧
      Effect.invoke (["p4", "grep"] ++ searchArgs "d" "p" true) ∈ effs) ∧
    handle_search envId "" "p" true
        [(ToolResult.finished "out" "", Button.OK)] =
      some [Effect.showDialog "Missing path" "OK"] := by
  refine ⟨by decide, ?_, ?_⟩
  · exact (validation_gate envId "d" "p" true
      [(ToolResult.finished "out" "", Button.OK)] (by decide)).2.2.2.1
      (by decide) rfl (by decide)
  · exact (validation_gate envId "" "p" true
      [(ToolResult.finished "out" "", Button.OK)] (by decide)).1 rfl

/-- C7: writing non-empty content `a` then reading returns `a`; appending
non-empty `b` then reading returns `a ++ b`; clearing then reading returns
the empty string. -/
theorem content_roundtrip (fs : FSState) (path a b : String)
    (hp : path ≠ "") (ha : a ≠ "") (hb : b ≠ "") :
    ∃ fs1 fs2 fs3,
      write_content fs a path = Except.ok fs1 ∧
      read_content fs1 path = Except.ok a ∧
      append_content fs1 b path = Except.ok fs2 ∧
      read_content fs2 path = Except.ok (a ++ b) ∧
      clear_file_content fs2 path = Except.ok fs3 ∧
      read_content fs3 path = Except.ok "" := by
  have hva : validate_params (PyVal.vtuple [PyVal.vstr a, PyVal.vstr path])
      [PyType.tstr, PyType.tstr] "write content" = Except.ok () := by
    simp [validate_params, asParamSeq, validateLoop, truthy, pyIsinstance,
      ha, hp]
  have hvb : validate_params (PyVal.vtuple [PyVal.vstr b, PyVal.vstr path])
      [PyType.tstr, PyType.tstr] "append content" = Except.ok () := by
    simp [validate_params, asParamSeq, validateLoop, truthy, pyIsinstance,
      hb, hp]
  have hvp : ∀ op : String,
      validate_params (PyVal.vstr path) [PyType.tstr] op = Except.ok () := by
    intro op
    simp [validate_params, asParamSeq, validateLoop, truthy, pyIsinstance, hp]
  refine ⟨op_write fs path a, op_append (op_write fs path a) path b,
    op_write (op_append (op_write fs path a) path b) path "",
    ?_, ?_, ?_, ?_, ?_, ?_⟩
  · simp [write_content, hva]
  · simp [read_content, hvp, op_read, op_write]
  · simp [append_content, hvb]
  · simp [read_content, hvp, op_read, op_append, op_write]
  · simp [clear_file_content, hvp]
  · simp [read_content, hvp, op_read, op_write]

/-- C7 witness: the round trip at a concrete empty filesystem, path and
contents. -/
theorem content_roundtrip_witness :
    ∃ fs1 fs2 fs3,
      write_content (fun _ => none) "x" "f" = Except.ok fs1 ∧
      read_content fs1 "f" = Except.ok "x" ∧
      append_content fs1 "y" "f" = Except.ok fs2 ∧
      read_content fs2 "f" = Except.ok ("x" ++ "y") ∧
      clear_file_content fs2 "f" = Except.ok fs3 ∧
      read_content fs3 "f" = Except.ok "" :=
  content_roundtrip (fun _ => none) "f" "x" "y" (by decide) (by decide)
    (by decide)

/-- C8: every OS failure inside `_op_handler` is re-raised as exactly one of
the five fixed kinds, the message is a function of the kind alone (the
OS-supplied detail is swallowed, `from None`), and the message is one of
the five fixed strings. -/
theorem os_error_translation (e : OSException) :
    op_handler_translate e = raisedOfKind (excKind e) ∧
    (op_handler_translate e).message ∈
      ["No such file or directory", "File already exists",
       "Insufficient file permissions", "OS error during file operation",
       "Unable to read file content"] := by
  cases e <;> simp [op_handler_translate, raisedOfKind, excKind]

/-- C9 counterexample: `_validate_params` unpacks a sequence argument into
its elements, so an empty list passed where a string is expected passes
validation without any invalid-parameter error, and `is_file` reaches the
OS call (first component `true`) instead of failing before filesystem
access; a singleton list of a non-empty string passes validation too. -/
theorem validate_params_bypass_counterexample :
    validate_params (PyVal.vlist []) [PyType.tstr] "validate file" =
      Except.ok () ∧
    is_file (fun _ => false) (PyVal.vlist []) =
      (true, Except.error "TypeError") ∧
    validate_params (PyVal.vlist [PyVal.vstr "a"]) [PyType.tstr]
      "validate file" = Except.ok () := by
  exact ⟨rfl, rfl, rfl⟩

/-- C9 (amended): for non-sequence arguments the claim holds — an empty or
non-string scalar fails with the generic invalid-parameter error before any
filesystem access; but a sequence argument is unpacked and its elements are
validated instead, so an empty sequence, or one whose zipped elements pass,
reaches the filesystem call. -/
theorem is_file_validation (isfile : String → Bool) (v : PyVal) :
    (isSeqVal v = false → (truthy v && pyIsinstance v PyType.tstr) = false →
      is_file isfile v =
        (false, Except.error "Unable to validate file: invalid parameter")) ∧
    (∀ xs : List PyVal,
      (xs = [] ∨ ∃ s, xs.head? = some (PyVal.vstr s) ∧ s ≠ "") →
      (is_file isfile (PyVal.vlist xs)).1 = true) := by
  constructor
  · intro hseq hfail
    have hwrap : asParamSeq v = [v] := by
      cases v <;> simp [asParamSeq] <;> simp [isSeqVal] at hseq
    have hval : validate_params v [PyType.tstr] "validate file" =
        Except.error "Unable to validate file: invalid parameter" := by
      simp [validate_params, hwrap, validateLoop, hfail]
    cases v <;> simp [is_file, hval]
  · intro xs hxs
    cases hxs with
    | inl hnil =>
      subst hnil
      rfl
    | inr hcons =>
      obtain ⟨s, hhead, hs⟩ := hcons
      cases xs with
      | nil => simp at hhead
      | cons x tail =>
        simp at hhead
        subst hhead
        have hval : validate_params (PyVal.vlist (PyVal.vstr s :: tail))
            [PyType.tstr] "validate file" = Except.ok () := by
          simp [validate_params, asParamSeq, validateLoop, truthy,
            pyIsinstance, hs]
        simp [is_file, hval]

/-- C9 amended witness: a concrete empty-string scalar fails before access,
and a concrete singleton list of a valid string reaches the OS call. -/
theorem is_file_validation_witness :
    is_file (fun _ => false) (PyVal.vstr "") =
      (false, Except.error "Unable to validate file: invalid parameter") ∧
    (is_file (fun _ => false) (PyVal.vlist [PyVal.vstr "a"])).1 = true :=
  ⟨(is_file_validation (fun _ => false) (PyVal.vstr "")).1 rfl (by decide),
   (is_file_validation (fun _ => false) (PyVal.vlist [PyVal.vstr "a"])).2
     [PyVal.vstr "a"] (Or.inr ⟨"a", rfl, by decide⟩)⟩

/-- C10: when the title or the body text passed to `mbox.show` is not a
string, a ValueError naming that parameter is raised before any dialog is
shown, even when the button-set and icon selectors are valid. -/
theorem show_rejects_nonstring (mb : DialogCall → Nat) (title text : PyVal)
    (button icon : String)
    (hb : (button_values button).isSome = true)
    (hi : (icon_values icon).isSome = true)
    (h : isStr title = false ∨ isStr text = false) :
    (mbox_show mb title text button icon).1 = none ∧
    ((mbox_show mb title text button icon).2 =
        Except.error "Invalid title parameter specified" ∨
     (mbox_show mb title text button icon).2 =
        Except.error "Invalid text parameter specified") := by
  by_cases ht : isStr title = false
  · have hval : validate_param title text button icon =
        Except.error "Invalid title parameter specified" := by
      simp [validate_param, ht]
    simp [mbox_show, hval]
  · have ht' : isStr title = true := by
      cases htt : isStr title with
      | false => exact absurd htt ht
      | true => rfl
    have hx : isStr text = false := by
      cases h with
      | inl hl => exact absurd hl ht
      | inr hr => exact hr
    have hval : validate_param title text button icon =
        Except.error "Invalid text parameter specified" := by
      simp [validate_param, ht', hx]
    simp [mbox_show, hval]

/-- C10 witness: a `None` title with valid text, button and icon selectors
raises the title error and shows no dialog. -/
theorem show_rejects_nonstring_witness :
    (button_values "OK").isSome = true ∧ (icon_values "ICONERROR").isSome = true ∧
    (mbox_show (fun _ => 1) PyVal.vnone (PyVal.vstr "msg") "OK" "ICONERROR").1 =
      none ∧
    ((mbox_show (fun _ => 1) PyVal.vnone (PyVal.vstr "msg") "OK" "ICONERROR").2 =
        Except.error "Invalid title parameter specified" ∨
     (mbox_show (fun _ => 1) PyVal.vnone (PyVal.vstr "msg") "OK" "ICONERROR").2 =
        Except.error "Invalid text parameter specified") := by
  have h := show_rejects_nonstring (fun _ => 1) PyVal.vnone (PyVal.vstr "msg")
    "OK" "ICONERROR" (by decide) (by decide) (Or.inl rfl)
  exact ⟨by decide, by decide, h.1, h.2⟩

end P4Search
